import Mathlib

/-!
Shallow embedding of `src/backend/main.py` (ICC Rankings API): an in-memory
pandas DataFrame loaded at startup and a set of read-only query endpoints.
Tables are lists of rows; the pandas `NaT` marker produced by
`pd.to_datetime(..., errors="coerce")` is modelled as `Option` with `none`.
Calendar dates are encoded as `Nat` in the order-preserving form
`year * 10000 + month * 100 + day`.
-/

deriving instance DecidableEq for Except

namespace ICC

/-- A parsed ranking record (a row of the table after `load_data` has coerced
the `Date` column).  `Player` is `Option` because the CSV may carry null
players (pandas `NaN`); `Date` is `none` exactly when the raw date string
failed to parse (pandas `NaT`). -/
structure Row where
  Player : Option String
  Format : String
  Category : String
  Date : Option Nat
  Rank : Int
  Rating : Int
deriving Repr, DecidableEq

/-- A raw CSV row as produced by `pd.read_csv` before the
`df["Date"] = pd.to_datetime(df["Date"], errors="coerce")` statement runs:
the `Date` column still holds the unparsed string. -/
structure RawRow where
  Player : Option String
  Format : String
  Category : String
  Date : String
  Rank : Int
  Rating : Int
deriving Repr, DecidableEq

/-- Model of the global `df`.  `hasCols` records whether the frame carries the
ranking-schema columns: the frame built by a successful `pd.read_csv` does,
while the bare `pd.DataFrame()` assigned in the failure path of `load_data`
has no columns at all, so any later `df["Player"]` / `df["Format"]` raises
`KeyError`. -/
structure DataFrame where
  hasCols : Bool
  rows : List Row
deriving Repr, DecidableEq

/-- Split a character list on a separator character (the semantics of
Python's `str.split` with a one-character separator). -/
def splitList (sep : Char) : List Char → List (List Char)
  | [] => [[]]
  | c :: rest =>
    match splitList sep rest with
    | [] => if c = sep then [[], []] else [[c]]
    | h :: t => if c = sep then [] :: h :: t else (c :: h) :: t

/-- Decimal digit-string reading: `some` of the value when the (non-empty)
character list is all digits, else `none`. -/
def digitsToNat (l : List Char) : Option Nat :=
  if l ≠ [] ∧ l.all Char.isDigit then
    some (l.foldl (fun a c => a * 10 + (c.toNat - 48)) 0)
  else none

/-- Model of `pd.to_datetime(s, errors="coerce")` on a single cell, restricted
to ISO `YYYY-MM-DD` calendar dates (the dataset's format, per the spec's
external-interface section): a malformed value becomes `none` (pandas `NaT`),
never an error.  The encoding `y * 10000 + m * 100 + d` orders like the
calendar dates it represents. -/
def parseDate (s : String) : Option Nat :=
  match splitList ('-') s.data with
  | [y, m, d] =>
    match digitsToNat y, digitsToNat m, digitsToNat d with
    | some yn, some mn, some dn =>
      if y.length = 4 ∧ 1 ≤ mn ∧ mn ≤ 12 ∧ 1 ≤ dn ∧ dn ≤ 31 then
        some (yn * 10000 + mn * 100 + dn)
      else none
    | _, _, _ => none
  | _ => none

/-- Row-wise effect of `df["Date"] = pd.to_datetime(df["Date"], errors="coerce")`. -/
def parseRow (r : RawRow) : Row :=
  ⟨r.Player, r.Format, r.Category, parseDate r.Date, r.Rank, r.Rating⟩

/-- `load_data` (main.py lines 21-31): on a successful fetch the global `df`
becomes the parsed table with coerced dates; on any exception the handler
assigns `df = pd.DataFrame()`, the empty column-less frame.  The fetch result
is passed in as `Option (List RawRow)` (`none` models the exception from
`pd.read_csv`). -/
def load_data (fetch : Option (List RawRow)) : DataFrame :=
  match fetch with
  | some raws => ⟨true, raws.map parseRow⟩
  | none => ⟨false, []⟩

/-- Contiguous-sublist test on character lists (Python's `needle in hay`). -/
def containsSub (needle : List Char) : List Char → Bool
  | [] => needle.isEmpty
  | c :: rest => needle.isPrefixOf (c :: rest) || containsSub needle rest

/-- The characters of a string lower-cased (Python's `str.lower` on the ASCII
range of this dataset). -/
def lowerChars (s : String) : List Char :=
  s.data.map Char.toLower

/-- Case-insensitive literal substring containment of `name` in `player`:
exactly the semantics of `query.lower() in p.lower()` in `search`, the
spec's description of `filter_by_name`, and the behaviour of
`player.str.contains(name, case=False, na=False)` on patterns free of regex
metacharacters.  The source's `str.contains` defaults to `regex=True`, so on
metacharacter patterns the code diverges from this definition — that regex
semantics is modelled below (`compileRe`, `reSearch`, `filter_by_name_re`)
and the divergence is what corrects claims C4 and C8. -/
def containsCI (player name : String) : Bool :=
  containsSub (lowerChars name) (lowerChars player)

/-- The cell predicate of
`df["Player"].str.contains(name, case=False, na=False)` for metacharacter-free
names (see `containsCI`): null players are mapped to `False` by `na=False`. -/
def matchesName (name : String) (r : Row) : Bool :=
  match r.Player with
  | some p => containsCI p name
  | none => false

/-- The spec's `filter_by_name`, i.e. the expression
`df[df["Player"].str.contains(name, case=False, na=False)]` shared by
`get_player`, `player_summary`, `dominance` and `compare`, on
metacharacter-free names; `filter_by_name_re` below carries the source's
regex semantics. -/
def filterByName (t : List Row) (name : String) : List Row :=
  t.filter (matchesName name)

/-- An optional exact-match column filter, guarded by Python truthiness:
`if format: data = data[data["Format"] == format]` skips the filter both for
`None` and for the empty string. -/
def optFilter (data : List Row) (field : Row → String) (v : Option String) : List Row :=
  match v with
  | some s => if s == "" then data else data.filter (fun r => field r == s)
  | none => data

/-- `format if format else "all"` (Python truthiness). -/
def fmtLabel : Option String → String
  | none => "all"
  | some s => if s == "" then "all" else s

/-- The filter chain shared verbatim by `get_player`, `player_summary` and
`dominance`: name match, then optional exact Format / Category filters. -/
def summaryData (df : DataFrame) (name : String) (format category : Option String) :
    List Row :=
  optFilter (optFilter (filterByName df.rows name) (fun r => r.Format) format)
    (fun r => r.Category) category

/-- `GET /players/{name}` (main.py lines 40-49).  On the column-less failure
frame, `df["Player"]` raises `KeyError`. -/
def get_player (df : DataFrame) (name : String) (format category : Option String) :
    Except String (List Row) :=
  if df.hasCols then .ok (summaryData df name format category)
  else .error ("KeyError: Player")

/-- Pandas elementwise `df["Date"] == d`: comparisons involving `NaT` (on
either side, e.g. an unparseable query date) are `False`. -/
def dateEq : Option Nat → Option Nat → Bool
  | some a, some b => a == b
  | _, _ => false

/-- `data.sort_values("Rank")`, modelled as a stable ascending sort on `Rank`.
The source uses the pandas default sort kind (`quicksort`), whose tie order is
not specified; every theorem below that involves this definition depends only
on order and membership facts that hold for any correct sort of the `Rank`
column. -/
def sort_by_rank (data : List Row) : List Row :=
  List.insertionSort (fun a b : Row => a.Rank ≤ b.Rank) data

/-- `GET /top` (main.py lines 52-62): filter by Format, Category and exact
parsed date, sort by Rank, take 10.  The first column access on the failure
frame (`df["Format"]`) raises `KeyError`. -/
def get_top (df : DataFrame) (date format category : String) :
    Except String (List Row) :=
  if df.hasCols then
    .ok ((sort_by_rank (df.rows.filter (fun r =>
      r.Format == format && r.Category == category &&
        dateEq r.Date (parseDate date)))).take 10)
  else .error ("KeyError: Format")

/-- Python's `str.strip()`: drop whitespace from both ends. -/
def stripChars (l : List Char) : List Char :=
  ((l.dropWhile Char.isWhitespace).reverse.dropWhile Char.isWhitespace).reverse

/-- `players.split(",")` followed by `p.strip()` for each part. -/
def splitPlayers (players : String) : List String :=
  (splitList (',') players.data).map (fun l => ⟨stripChars l⟩)

/-- `GET /compare` (main.py lines 65-78).  The Python dict keyed by the input
names is modelled as an association list in input order (duplicate names would
collapse in the dict; none of the theorems below depend on that). -/
def compare (df : DataFrame) (players format category : String) :
    Except String (List (String × List Row)) :=
  if df.hasCols then
    .ok ((splitPlayers players).map (fun name =>
      (name, df.rows.filter (fun r =>
        r.Format == format && r.Category == category && matchesName name r))))
  else .error ("KeyError: Format")

/-- `GET /search` (main.py lines 261-267): distinct non-null players in first
occurrence order (`dropna().unique()`), kept when the query is a
case-insensitive substring of the full name, truncated to 20. -/
def search (df : DataFrame) (query : String) : Except String (List String) :=
  if df.hasCols then
    .ok ((((df.rows.filterMap (fun r => r.Player)).eraseDups).filter
      (fun p => containsCI p query)).take 20)
  else .error ("KeyError: Player")

/-! ### Regex semantics of the name filter

`Series.str.contains` defaults to `regex=True`, so the name reaching
`get_player` / `player_summary` / `dominance` / `compare` is a regular
expression, not a literal.  Full Python `re` is not embeddable; the fragment
modelled here is the one the theorems use: patterns built from literal
characters and the metacharacter `.` (any character except newline).  A
pattern containing any other regex special character is outside the fragment
(`none`): Python would apply further regex rules there, or raise `re.error`
on an invalid pattern, and no theorem below draws a conclusion about it. -/

/-- The special characters of Python regular expressions. -/
def isReMeta (c : Char) : Bool :=
  c == '.' || c == '^' || c == '$' || c == '*' || c == '+' || c == '?' ||
  c == '\x7b' || c == '\x7d' || c == '[' || c == ']' || c == '\\' || c == '|' ||
  c == '(' || c == ')'

/-- A name that is regex-literal: it contains no regex special characters, so
`str.contains` treats it as a plain substring. -/
def isLiteralPattern (s : String) : Bool :=
  s.data.all (fun c => !(isReMeta c))

/-- One element of the modelled regex fragment. -/
inductive ReAtom where
  | lit (c : Char)
  | dot
deriving Repr, DecidableEq

/-- Compile a pattern in the modelled fragment: literal characters and `.`;
`none` marks a pattern outside the fragment. -/
def compileRe : List Char → Option (List ReAtom)
  | [] => some []
  | c :: cs =>
    match compileRe cs with
    | none => none
    | some as =>
      if c = '.' then some (.dot :: as)
      else if isReMeta c then none
      else some (.lit c :: as)

/-- `re.IGNORECASE` (the effect of `case=False`) on a fragment atom: literal
characters compare lower-cased; the haystack is lowered on the other side. -/
def atomLower : ReAtom → ReAtom
  | .lit c => .lit (Char.toLower c)
  | .dot => .dot

/-- Whether one fragment atom matches one character: a literal matches
itself, `.` matches any character except newline (no `re.DOTALL` here). -/
def reAtomMatches : ReAtom → Char → Bool
  | .lit l, c => l == c
  | .dot, c => decide (c ≠ '\n')

/-- Whether the atom sequence matches a prefix of the haystack (each fragment
atom consumes exactly one character). -/
def reMatchPrefix : List ReAtom → List Char → Bool
  | [], _ => true
  | _ :: _, [] => false
  | a :: as, c :: cs => reAtomMatches a c && reMatchPrefix as cs

/-- `re.search` of a fragment pattern: does it match at some position? -/
def reSearch (atoms : List ReAtom) : List Char → Bool
  | [] => atoms.isEmpty
  | c :: cs => reMatchPrefix atoms (c :: cs) || reSearch atoms cs

/-- The cell predicate of `df["Player"].str.contains(name, case=False,
na=False)` under the source's `regex=True` semantics, for a compiled
fragment pattern: case-insensitive `re.search` on a non-null cell, `False`
on a null cell. -/
def reCell (atoms : List ReAtom) (r : Row) : Bool :=
  match r.Player with
  | some p => reSearch (atoms.map atomLower) (lowerChars p)
  | none => false

/-- The name-filter expression
`df[df["Player"].str.contains(name, case=False, na=False)]` with the
source's regex semantics, on the modelled fragment (`none` outside it). -/
def filter_by_name_re (t : List Row) (name : String) : Option (List Row) :=
  (compileRe name.data).map (fun atoms => t.filter (reCell atoms))

/-- The parsed dates of a table: `Date` cells that are not `NaT`.  Pandas
`Series.min()` / `Series.max()` skip `NaT` (skipna), so they aggregate exactly
this list. -/
def parsedDates (rows : List Row) : List Nat :=
  rows.filterMap (fun r => r.Date)

/-- Pandas `Series.min()` over the parsed dates: `none` models the `NaT`
returned on an empty (or all-`NaT`) series. -/
def seriesMin : List Nat → Option Nat
  | [] => none
  | x :: xs =>
    match seriesMin xs with
    | none => some x
    | some m => some (min x m)

/-- Pandas `Series.max()` over the parsed dates. -/
def seriesMax : List Nat → Option Nat
  | [] => none
  | x :: xs =>
    match seriesMax xs with
    | none => some x
    | some m => some (max x m)

/-- `data.loc[data["Rating"].idxmax()]`: the row holding the maximum `Rating`,
ties resolved to the first occurrence in table order (pandas `idxmax` returns
the first index attaining the maximum); `none` on an empty table. -/
def idxmaxRating : List Row → Option Row
  | [] => none
  | r :: rs =>
    match idxmaxRating rs with
    | none => some r
    | some m => if m.Rating > r.Rating then some m else some r

/-- Result of `GET /summary/{name}` (main.py lines 89-118).  `FirstAppearance`
and `LastAppearance` hold the min / max parsed date; `none` models the string
`str(NaT.date())` produced when every date in the filtered set is `NaT`. -/
inductive SummaryResult where
  | noData (Player : String)
  | summary (Player Format Category : String) (PeakRating PeakRank : Int)
      (WeeksAtRank1 : Nat) (FirstAppearance LastAppearance : Option Nat)
deriving Repr, DecidableEq

/-- `GET /summary/{name}` (main.py lines 89-118). -/
def player_summary (df : DataFrame) (name : String) (format category : Option String) :
    Except String SummaryResult :=
  if df.hasCols then
    let data := summaryData df name format category
    if data.isEmpty then .ok (.noData name)
    else
      match idxmaxRating data with
      | none => .error ("ValueError: attempt to get argmax of an empty sequence")
      | some peak =>
        .ok (.summary name (fmtLabel format) (fmtLabel category) peak.Rating peak.Rank
          (data.countP (fun r => r.Rank == 1))
          (seriesMin (parsedDates data)) (seriesMax (parsedDates data)))
  else .error ("KeyError: Player")

/-- `GET /summary/{name}` with the source's regex semantics for the name
filter (the rest of the endpoint exactly as in `player_summary`): `none` when
the name falls outside the modelled regex fragment. -/
def player_summary_re (df : DataFrame) (name : String)
    (format category : Option String) : Option (Except String SummaryResult) :=
  if df.hasCols then
    (filter_by_name_re df.rows name).map (fun base =>
      let data := optFilter (optFilter base (fun r => r.Format) format)
        (fun r => r.Category) category
      if data.isEmpty then .ok (.noData name)
      else
        match idxmaxRating data with
        | none => .error ("ValueError: attempt to get argmax of an empty sequence")
        | some peak =>
          .ok (.summary name (fmtLabel format) (fmtLabel category) peak.Rating peak.Rank
            (data.countP (fun r => r.Rank == 1))
            (seriesMin (parsedDates data)) (seriesMax (parsedDates data))))
  else some (.error ("KeyError: Player"))

/-- Result of `GET /dominance/{name}` (main.py lines 121-145). -/
inductive DomResult where
  | noData (Player : String)
  | stats (Player Format Category : String) (DaysAtRank1 DaysInTop5 DaysInTop10 : Nat)
deriving Repr, DecidableEq

/-- `GET /dominance/{name}` (main.py lines 121-145): cumulative counts of rows
with `Rank == 1`, `Rank <= 5`, `Rank <= 10` in the filtered set. -/
def dominance (df : DataFrame) (name : String) (format category : Option String) :
    Except String DomResult :=
  if df.hasCols then
    let data := summaryData df name format category
    if data.isEmpty then .ok (.noData name)
    else
      .ok (.stats name (fmtLabel format) (fmtLabel category)
        (data.countP (fun r => r.Rank == 1))
        (data.countP (fun r => decide (r.Rank ≤ 5)))
        (data.countP (fun r => decide (r.Rank ≤ 10))))
  else .error ("KeyError: Player")

/-- One leaderboard record: the `groupby("Player").agg(...)` output row. -/
structure LeaderEntry where
  Player : String
  DaysAtRank1 : Nat
  DaysInTop5 : Nat
  DaysInTop10 : Nat
deriving Repr, DecidableEq

/-- The comparator realised by
`sort_values(["DaysAtRank1", "DaysInTop5", "DaysInTop10"], ascending=[False, False, False])`:
`tupleGe a b` holds iff the 3-tuple `(a.DaysAtRank1, a.DaysInTop5, a.DaysInTop10)`
is lexicographically at least `b`'s, so `a` may precede `b` in the descending
output. -/
def tupleGe (a b : LeaderEntry) : Bool :=
  decide (b.DaysAtRank1 < a.DaysAtRank1 ∨
    (b.DaysAtRank1 = a.DaysAtRank1 ∧
      (b.DaysInTop5 < a.DaysInTop5 ∨
        (b.DaysInTop5 = a.DaysInTop5 ∧ b.DaysInTop10 ≤ a.DaysInTop10))))

/-- Lexicographic (code-point) comparison of character lists, the order Python
and pandas use on strings. -/
def lexChars : List Char → List Char → Bool
  | [], _ => true
  | _ :: _, [] => false
  | a :: as, b :: bs => if a = b then lexChars as bs else decide (a < b)

/-- String order used for the groupby keys. -/
def strLe (a b : String) : Bool :=
  lexChars a.data b.data

/-- The group labels of `data.groupby("Player")`: distinct non-null players,
sorted ascending (pandas groups with `sort=True` and drops `NaN` keys). -/
def distinctPlayers (data : List Row) : List String :=
  List.insertionSort (fun a b : String => strLe a b = true)
    ((data.filterMap (fun r => r.Player)).eraseDups)

/-- The aggregated row of one `groupby("Player")` group. -/
def groupCounts (data : List Row) (p : String) : LeaderEntry :=
  ⟨p, (data.filter (fun r => r.Player == some p)).countP (fun r => r.Rank == 1),
    (data.filter (fun r => r.Player == some p)).countP (fun r => decide (r.Rank ≤ 5)),
    (data.filter (fun r => r.Player == some p)).countP (fun r => decide (r.Rank ≤ 10))⟩

/-- The un-sorted leaderboard: one aggregated entry per distinct player. -/
def leaderEntries (data : List Row) : List LeaderEntry :=
  (distinctPlayers data).map (groupCounts data)

/-- `leaderboard.sort_values([...], ascending=[False, False, False]).head(top_n)`.
Pandas sorts a multi-column `by` through a stable lexicographic indexer, which
a stable insertion sort under `tupleGe` models exactly. -/
def leaderboardOf (data : List Row) (top_n : Nat) : List LeaderEntry :=
  (List.insertionSort (fun a b : LeaderEntry => tupleGe a b = true)
    (leaderEntries data)).take top_n

/-- `GET /leaders` (main.py lines 149-172). -/
def leaders (df : DataFrame) (format category : String) (top_n : Nat) :
    Except String (List LeaderEntry) :=
  if df.hasCols then
    let data := df.rows.filter (fun r => r.Format == format && r.Category == category)
    if data.isEmpty then .ok [] else .ok (leaderboardOf data top_n)
  else .error ("KeyError: Format")

/-- `Series.dt.year` of a parsed date cell. -/
def yearOf (d : Nat) : Nat := d / 10000

/-- Elementwise `df["Date"].dt.year == year`: `NaT` yields `NaN`, which
compares `False`. -/
def yearEq (d : Option Nat) (y : Nat) : Bool :=
  match d with
  | some n => yearOf n == y
  | none => false

/-- Elementwise `df["Date"].dt.year >= y` (`False` on `NaT`). -/
def yearGe (d : Option Nat) (y : Nat) : Bool :=
  match d with
  | some n => decide (y ≤ yearOf n)
  | none => false

/-- Elementwise `df["Date"].dt.year <= y` (`False` on `NaT`). -/
def yearLe (d : Option Nat) (y : Nat) : Bool :=
  match d with
  | some n => decide (yearOf n ≤ y)
  | none => false

/-- `GET /year-leaders` (main.py lines 191-218). -/
def year_leaders (df : DataFrame) (year : Nat) (format category : String) (top_n : Nat) :
    Except String (List LeaderEntry) :=
  if df.hasCols then
    let data := df.rows.filter (fun r =>
      r.Format == format && r.Category == category && yearEq r.Date year)
    if data.isEmpty then .ok [] else .ok (leaderboardOf data top_n)
  else .error ("KeyError: Format")

/-- The dict returned by a non-empty `GET /decade-leaders`. -/
structure DecadeResult where
  Decade : String
  Format : String
  Category : String
  Leaders : List LeaderEntry
deriving Repr, DecidableEq

/-- `GET /decade-leaders` (main.py lines 221-257).  On an empty filtered set
the endpoint returns the bare list `[]`; otherwise the `DecadeResult` dict —
hence the sum type. -/
def decade_leaders (df : DataFrame) (format category : String) (decade top_n : Nat) :
    Except String (Sum (List LeaderEntry) DecadeResult) :=
  if df.hasCols then
    let data := df.rows.filter (fun r =>
      r.Format == format && r.Category == category &&
        yearGe r.Date decade && yearLe r.Date (decade + 9))
    if data.isEmpty then .ok (.inl [])
    else .ok (.inr ⟨toString decade ++ ("s"), format, category, leaderboardOf data top_n⟩)
  else .error ("KeyError: Format")

/-- The leaderboard list carried by either shape of a `/decade-leaders`
response. -/
def decadeLeaderList : Sum (List LeaderEntry) DecadeResult → List LeaderEntry
  | .inl l => l
  | .inr r => r.Leaders

/-- A value the global name `df` can hold: either a frame whose `Date` column
has been coerced (`parsed`), or the frame assigned by line 26 of `load_data`
before line 27 has coerced the dates in place (`rawDates`). -/
inductive DfValue where
  | parsed (d : DataFrame)
  | rawDates (raws : List RawRow)
deriving Repr, DecidableEq

/-- The successive values a concurrent reader of the global `df` can observe
while `load_data` runs (startup or `/refresh`, which calls it directly):
`old` before the call; on a successful fetch, the freshly read frame with its
`Date` column still unparsed (line 26 `df = pd.read_csv(...)` publishes the
global before line 27 `df["Date"] = pd.to_datetime(...)` mutates it in
place), then the final coerced frame; on a failed fetch the global keeps its
old value until the handler assigns the empty frame. -/
def load_data_states (old : DfValue) (fetch : Option (List RawRow)) : List DfValue :=
  match fetch with
  | some raws => [old, .rawDates raws, .parsed (load_data fetch)]
  | none => [old, .parsed (load_data fetch)]

/-! ### Sample data used by the concrete witnesses -/

/-- A rank-1 observation of player "Ko". -/
def rowK1 : Row := ⟨some ("Ko"), "odi", "batting", some 20200101, 1, 900⟩

/-- A later, lower-rated observation of "Ko". -/
def rowK2 : Row := ⟨some ("Ko"), "odi", "batting", some 20200601, 3, 850⟩

/-- An observation of "Ko" whose date failed to parse (pandas `NaT`). -/
def rowND : Row := ⟨some ("Ko"), "odi", "batting", none, 2, 880⟩

/-- An observation in a different segment. -/
def rowOther : Row := ⟨some ("Ba"), "test", "bowling", some 20210101, 11, 700⟩

/-- A row with a null Player cell. -/
def rowNull : Row := ⟨none, "odi", "batting", some 20200101, 4, 800⟩

/-- A second odi/batting player sharing rank 1 on the first date. -/
def rowB : Row := ⟨some ("Ab"), "odi", "batting", some 20200101, 1, 910⟩

/-- A loaded table holding all the sample rows. -/
def dfEx : DataFrame := ⟨true, [rowK1, rowK2, rowND, rowOther, rowNull, rowB]⟩

/-- A raw CSV row with a well-formed date. -/
def rawEx : RawRow := ⟨some ("Ko"), "odi", "batting", "2020-01-01", 1, 900⟩

/-- A raw CSV row whose date string cannot be parsed. -/
def rawBad : RawRow := ⟨some ("Ko"), "odi", "batting", "bad-date", 2, 880⟩

/-! ### Helper lemmas -/

theorem containsSub_nil (l : List Char) : containsSub [] l = true := by
  induction l with
  | nil => rfl
  | cons c rest ih => simp [containsSub, List.isPrefixOf, ih]

theorem matchesName_empty (r : Row) : matchesName "" r = r.Player.isSome := by
  have h0 : lowerChars "" = [] := rfl
  cases h : r.Player with
  | none => simp [matchesName, h]
  | some p => simp [matchesName, h, containsCI, h0, containsSub_nil]

theorem reMatchPrefix_lits (l h : List Char) :
    reMatchPrefix (l.map ReAtom.lit) h = l.isPrefixOf h := by
  induction l generalizing h with
  | nil => cases h <;> rfl
  | cons c cs ih =>
    cases h with
    | nil => rfl
    | cons d ds => simp [reMatchPrefix, reAtomMatches, List.isPrefixOf, ih]

theorem reSearch_lits (l h : List Char) :
    reSearch (l.map ReAtom.lit) h = containsSub l h := by
  induction h with
  | nil => cases l <;> rfl
  | cons c cs ih => simp [reSearch, containsSub, reMatchPrefix_lits, ih]

theorem compileRe_literal (l : List Char) (h : l.all (fun c => !(isReMeta c)) = true) :
    compileRe l = some (l.map ReAtom.lit) := by
  induction l with
  | nil => rfl
  | cons c cs ih =>
    simp only [List.all_cons, Bool.and_eq_true, Bool.not_eq_true'] at h
    obtain ⟨hc, hcs⟩ := h
    have hdot : ¬ (c = '.') := by
      intro he
      subst he
      simp [isReMeta] at hc
    simp [compileRe, ih hcs, hdot, hc]

theorem reCell_lits (name : String) (r : Row) :
    reCell (name.data.map ReAtom.lit) r = matchesName name r := by
  cases hp : r.Player with
  | none => simp [reCell, matchesName, hp]
  | some p =>
    simp only [reCell, matchesName, hp]
    rw [List.map_map]
    rw [show (atomLower ∘ ReAtom.lit) = (ReAtom.lit ∘ Char.toLower) from rfl]
    rw [← List.map_map]
    exact reSearch_lits _ _

theorem filter_by_name_re_literal (t : List Row) (name : String)
    (h : isLiteralPattern name = true) :
    filter_by_name_re t name = some (filterByName t name) := by
  unfold filter_by_name_re
  rw [compileRe_literal name.data h]
  show some (t.filter (reCell (name.data.map ReAtom.lit))) = some (filterByName t name)
  rw [List.filter_congr (fun r _ => reCell_lits name r)]
  rfl

theorem player_summary_re_literal (df : DataFrame) (name : String)
    (format category : Option String) (h : isLiteralPattern name = true) :
    player_summary_re df name format category =
      some (player_summary df name format category) := by
  unfold player_summary_re player_summary
  cases hc : df.hasCols with
  | false => simp [hc]
  | true =>
    simp only [hc, if_true]
    rw [filter_by_name_re_literal df.rows name h]
    rfl

theorem idxmaxRating_cons (r : Row) (rs : List Row) :
    idxmaxRating (r :: rs) =
      match idxmaxRating rs with
      | none => some r
      | some m => if r.Rating < m.Rating then some m else some r := rfl

theorem idxmaxRating_decomp (l : List Row) (h : l ≠ []) :
    ∃ m l1 l2, idxmaxRating l = some m ∧ l = l1 ++ m :: l2 ∧
      (∀ r ∈ l1, r.Rating < m.Rating) ∧ (∀ r ∈ l2, r.Rating ≤ m.Rating) := by
  induction l with
  | nil => exact absurd rfl h
  | cons a t ih =>
    cases t with
    | nil =>
      refine ⟨a, [], [], by simp [idxmaxRating], rfl, by simp, by simp⟩
    | cons b t2 =>
      obtain ⟨m, l1, l2, hm, hdec, h1, h2⟩ := ih (by simp)
      by_cases hgt : a.Rating < m.Rating
      · refine ⟨m, a :: l1, l2, ?_, by simp [hdec], ?_, h2⟩
        · rw [idxmaxRating_cons, hm]
          simp [hgt]
        · intro r hr
          rcases List.mem_cons.mp hr with h | h
          · exact h ▸ hgt
          · exact h1 r h
      · push_neg at hgt
        refine ⟨a, [], b :: t2, ?_, rfl, by simp, ?_⟩
        · rw [idxmaxRating_cons, hm]
          simp [not_lt.mpr hgt]
        · intro r hr
          rw [hdec] at hr
          rcases List.mem_append.mp hr with h | h
          · exact le_of_lt (lt_of_lt_of_le (h1 r h) hgt)
          · rcases List.mem_cons.mp h with h | h
            · exact h ▸ hgt
            · exact le_trans (h2 r h) hgt

/-- The claimed meaning of `FirstAppearance`: the minimum over exactly the
parsed dates (`none` iff there are none). -/
def isEarliest (o : Option Nat) (l : List Nat) : Prop :=
  (o = none ↔ l = []) ∧ ∀ d, o = some d → d ∈ l ∧ ∀ x ∈ l, d ≤ x

/-- The claimed meaning of `LastAppearance`. -/
def isLatest (o : Option Nat) (l : List Nat) : Prop :=
  (o = none ↔ l = []) ∧ ∀ d, o = some d → d ∈ l ∧ ∀ x ∈ l, x ≤ d

theorem seriesMin_isEarliest (l : List Nat) : isEarliest (seriesMin l) l := by
  induction l with
  | nil => exact ⟨by simp [seriesMin], by simp [seriesMin]⟩
  | cons a t ih =>
    obtain ⟨ihn, ihs⟩ := ih
    constructor
    · constructor
      · intro h
        cases ht : seriesMin t <;> simp [seriesMin, ht] at h
      · intro h
        exact absurd h (by simp)
    · intro d hd
      cases ht : seriesMin t with
      | none =>
        have h0 : t = [] := ihn.mp ht
        subst h0
        simp [seriesMin] at hd
        subst hd
        simp
      | some m =>
        obtain ⟨hmem, hle⟩ := ihs m ht
        simp [seriesMin, ht] at hd
        subst hd
        constructor
        · have hcases : min a m = a ∨ min a m = m := by omega
          rcases hcases with h | h
          · rw [h]; exact List.mem_cons_self a t
          · rw [h]; exact List.mem_cons_of_mem a hmem
        · intro x hx
          rcases List.mem_cons.mp hx with h | h
          · subst h; omega
          · have := hle x h; omega

theorem seriesMax_isLatest (l : List Nat) : isLatest (seriesMax l) l := by
  induction l with
  | nil => exact ⟨by simp [seriesMax], by simp [seriesMax]⟩
  | cons a t ih =>
    obtain ⟨ihn, ihs⟩ := ih
    constructor
    · constructor
      · intro h
        cases ht : seriesMax t <;> simp [seriesMax, ht] at h
      · intro h
        exact absurd h (by simp)
    · intro d hd
      cases ht : seriesMax t with
      | none =>
        have h0 : t = [] := ihn.mp ht
        subst h0
        simp [seriesMax] at hd
        subst hd
        simp
      | some m =>
        obtain ⟨hmem, hle⟩ := ihs m ht
        simp [seriesMax, ht] at hd
        subst hd
        constructor
        · have hcases : max a m = a ∨ max a m = m := by omega
          rcases hcases with h | h
          · rw [h]; exact List.mem_cons_self a t
          · rw [h]; exact List.mem_cons_of_mem a hmem
        · intro x hx
          rcases List.mem_cons.mp hx with h | h
          · subst h; omega
          · have := hle x h; omega

instance : IsTotal LeaderEntry (fun a b => tupleGe a b = true) := by
  constructor
  intro a b
  simp only [tupleGe, decide_eq_true_eq]
  omega

instance : IsTrans LeaderEntry (fun a b => tupleGe a b = true) := by
  constructor
  intro a b c
  simp only [tupleGe, decide_eq_true_eq]
  omega

theorem leaderboardOf_pairwise (data : List Row) (n : Nat) :
    (leaderboardOf data n).Pairwise (fun a b => tupleGe a b = true) := by
  have h := List.sorted_insertionSort (fun a b : LeaderEntry => tupleGe a b = true)
    (leaderEntries data)
  exact List.Pairwise.sublist (List.take_sublist n _) h

/-! ### Claim theorems -/

/-- C1: the spec claims that after a failed load the store is an empty table
and every query endpoint still succeeds with empty results.  The first half
holds (`pd.DataFrame()` has zero rows), but the fallback frame has no columns
either, so every endpoint's first column access (`df["Player"]`,
`df["Format"]`) raises `KeyError` instead of returning an empty result: the
code contradicts the stated (and clearly intended) graceful-degradation
policy.  This theorem evaluates the code at the failing input. -/
theorem C1_load_failure_leaves_queries_broken :
    (load_data none).rows = [] ∧
    get_player (load_data none) ("kohli") none none = .error ("KeyError: Player") ∧
    search (load_data none) ("koh") = .error ("KeyError: Player") ∧
    get_top (load_data none) ("2024-01-01") ("odi") ("batting") =
      .error ("KeyError: Format") ∧
    player_summary (load_data none) ("kohli") none none = .error ("KeyError: Player") ∧
    dominance (load_data none) ("kohli") none none = .error ("KeyError: Player") ∧
    leaders (load_data none) ("odi") ("batting") 20 = .error ("KeyError: Format") := by
  decide

/-- C2 (counterexample): the claim that a reader concurrent with a refresh
observes either the fully-old or the fully-new table is false: `load_data`
publishes the freshly fetched frame (global assignment, line 26) before
coercing its `Date` column in place (line 27), so the intermediate value
`DfValue.rawDates [rawEx]` — the new rows with unparsed dates — is observable
and differs from both the old and the final table. -/
theorem C2_refresh_not_atomic_counterexample :
    ¬ (∀ s ∈ load_data_states (.parsed ⟨true, []⟩) (some [rawEx]),
        s = DfValue.parsed ⟨true, []⟩ ∨ s = .parsed (load_data (some [rawEx]))) := by
  decide

/-- C2 (amended): a reader concurrent with a refresh observes the old table,
the newly fetched table with its `Date` column not yet coerced, or the final
table — never a partially copied row set. -/
theorem C2_refresh_three_observable_states (old : DfValue)
    (fetch : Option (List RawRow)) (s : DfValue)
    (h : s ∈ load_data_states old fetch) :
    s = old ∨ (∃ raws, fetch = some raws ∧ s = .rawDates raws) ∨
      s = .parsed (load_data fetch) := by
  cases fetch with
  | none =>
    simp only [load_data_states, List.mem_cons, List.not_mem_nil, or_false] at h
    rcases h with h | h
    · exact Or.inl h
    · exact Or.inr (Or.inr h)
  | some raws =>
    simp only [load_data_states, List.mem_cons, List.not_mem_nil, or_false] at h
    rcases h with h | h | h
    · exact Or.inl h
    · exact Or.inr (Or.inl ⟨raws, rfl, h⟩)
    · exact Or.inr (Or.inr h)

/-- Witness for the amended C2 theorem at a concrete refresh. -/
theorem C2_refresh_states_witness :
    DfValue.rawDates [rawEx] = DfValue.parsed ⟨true, []⟩ ∨
    (∃ raws, some [rawEx] = some raws ∧ DfValue.rawDates [rawEx] = DfValue.rawDates raws) ∨
    DfValue.rawDates [rawEx] = DfValue.parsed (load_data (some [rawEx])) :=
  C2_refresh_three_observable_states (DfValue.parsed ⟨true, []⟩) (some [rawEx])
    (DfValue.rawDates [rawEx]) (by decide)

/-- C7: whenever `/dominance/{name}` returns stats (non-empty filtered set),
the three day counts are monotone: DaysAtRank1 ≤ DaysInTop5 ≤ DaysInTop10,
because they count the same rows under successively weaker rank predicates. -/
theorem C7_dominance_monotone (df : DataFrame) (name : String)
    (format category : Option String) (p f c : String) (d1 d5 d10 : Nat)
    (h : dominance df name format category = .ok (.stats p f c d1 d5 d10)) :
    d1 ≤ d5 ∧ d5 ≤ d10 := by
  unfold dominance at h
  split at h
  · simp only [] at h
    split at h
    · simp at h
    · simp only [Except.ok.injEq, DomResult.stats.injEq] at h
      obtain ⟨-, -, -, h1, h5, h10⟩ := h
      subst h1; subst h5; subst h10
      constructor
      · refine List.countP_mono_left ?_
        intro r _ hr
        simp only [beq_iff_eq] at hr
        simp only [decide_eq_true_eq]
        omega
      · refine List.countP_mono_left ?_
        intro r _ hr
        simp only [decide_eq_true_eq] at hr ⊢
        omega
  · simp at h

/-- Witness for C7 at a concrete table. -/
theorem C7_dominance_monotone_witness :
    dominance dfEx ("ko") none none = .ok (.stats ("ko") ("all") ("all") 1 3 3) ∧
      1 ≤ 3 ∧ 3 ≤ 3 :=
  ⟨by decide, C7_dominance_monotone dfEx ("ko") none none ("ko") ("all") ("all") 1 3 3
    (by decide)⟩

/-- C8 (counterexample): the claimed soundness of `filter_by_name` fails
because the source's `str.contains` defaults to `regex=True`: at the pattern
`"."` the filter keeps the row whose Player is `"Ko"` (the regex `.` matches
any character), yet `"Ko"` does not contain `"."` case-insensitively. -/
theorem C8_regex_counterexample :
    filter_by_name_re [rowK1] (".") = some [rowK1] ∧
    rowK1.Player = some ("Ko") ∧ containsCI ("Ko") (".") = false := by
  decide

/-- C8 (amended): for name substrings free of regex metacharacters — the code
hands the name to a regex search, so metacharacter patterns match by regex
rules and invalid ones raise `re.error` — the regex filter coincides with the
literal case-insensitive substring filter, which is sound and complete: a row
is in the result iff it is in the input table and its `Player` cell is
non-null and contains the query case-insensitively (null players are excluded
by `na=False`). -/
theorem C8_filter_by_name_sound_complete (t : List Row) (s : String) (r : Row)
    (hs : isLiteralPattern s = true) :
    filter_by_name_re t s = some (filterByName t s) ∧
    (r ∈ filterByName t s ↔
      r ∈ t ∧ ∃ p, r.Player = some p ∧ containsCI p s = true) := by
  refine ⟨filter_by_name_re_literal t s hs, ?_⟩
  rw [filterByName, List.mem_filter]
  refine and_congr_right (fun _ => ?_)
  cases h : r.Player with
  | none => simp [matchesName, h]
  | some p => simp [matchesName, h]

/-- Witness for C8 at a concrete row and metacharacter-free query. -/
theorem C8_filter_by_name_witness :
    filter_by_name_re dfEx.rows ("ko") = some (filterByName dfEx.rows ("ko")) ∧
    (rowK1 ∈ filterByName dfEx.rows ("ko") ↔
      rowK1 ∈ dfEx.rows ∧ ∃ p, rowK1.Player = some p ∧ containsCI p ("ko") = true) :=
  C8_filter_by_name_sound_complete dfEx.rows ("ko") rowK1 (by decide)

/-- C4 (counterexample): at the name `"."` the filtered set in the claim's
sense (case-insensitive substring match) is empty, so the claim requires the
no-data marker; but the code treats the name as a regex (`str.contains`
defaults to `regex=True`), `.` matches any character, and the endpoint
returns a full summary instead. -/
theorem C4_regex_counterexample :
    summaryData (⟨true, [rowK1]⟩ : DataFrame) (".") none none = [] ∧
    player_summary_re ⟨true, [rowK1]⟩ (".") none none =
      some (.ok (.summary (".") ("all") ("all") 900 1 1
        (some 20200101) (some 20200101))) ∧
    player_summary_re ⟨true, [rowK1]⟩ (".") none none ≠
      some (.ok (.noData ("."))) := by
  decide

/-- C4 (amended): for every name free of regex metacharacters — the code
passes the name to a regex search, so metacharacter names match by regex
rules and invalid ones raise `re.error` — `/summary/{name}` behaves as
claimed (and the regex endpoint coincides with the substring one): the
no-data marker on an empty filtered set; on a non-empty filtered set the
peak-Rating row (argmax of Rating, ties to the first occurrence in table
order: everything strictly earlier rates strictly lower, everything later
rates no higher), that row's Rank, the count of Rank == 1 rows, and the
earliest and latest parsed date of the filtered set (`none` standing for the
NaT marker when no date parsed). -/
theorem C4_player_summary_spec (df : DataFrame) (name : String)
    (format category : Option String) (hc : df.hasCols = true)
    (hname : isLiteralPattern name = true) :
    player_summary_re df name format category =
      some (player_summary df name format category) ∧
    (summaryData df name format category = [] →
      player_summary df name format category = .ok (.noData name)) ∧
    (summaryData df name format category ≠ [] →
      ∃ peak l1 l2,
        summaryData df name format category = l1 ++ peak :: l2 ∧
        (∀ r ∈ l1, r.Rating < peak.Rating) ∧
        (∀ r ∈ l2, r.Rating ≤ peak.Rating) ∧
        isEarliest (seriesMin (parsedDates (summaryData df name format category)))
          (parsedDates (summaryData df name format category)) ∧
        isLatest (seriesMax (parsedDates (summaryData df name format category)))
          (parsedDates (summaryData df name format category)) ∧
        player_summary df name format category = .ok (.summary name (fmtLabel format)
          (fmtLabel category) peak.Rating peak.Rank
          ((summaryData df name format category).countP (fun r => r.Rank == 1))
          (seriesMin (parsedDates (summaryData df name format category)))
          (seriesMax (parsedDates (summaryData df name format category))))) := by
  refine ⟨player_summary_re_literal df name format category hname, ?_, ?_⟩
  · intro h
    simp [player_summary, hc, h]
  · intro h
    obtain ⟨m, l1, l2, hm, hdec, h1, h2⟩ := idxmaxRating_decomp _ h
    refine ⟨m, l1, l2, hdec, h1, h2, seriesMin_isEarliest _, seriesMax_isLatest _, ?_⟩
    have hne : (summaryData df name format category).isEmpty = false := by
      cases hsd : summaryData df name format category with
      | nil => exact absurd hsd h
      | cons a l => rfl
    simp [player_summary, hc, hne, hm]

/-- C5: a row whose raw date fails to parse gets the null marker from the
load; such rows never match the exact-date filter of `/top`; they contribute
nothing to the parsed-date list that min/max aggregate over; and they are
still returned by name queries. -/
theorem C5_unparseable_dates_excluded :
    (∀ raw : RawRow, parseDate raw.Date = none → (parseRow raw).Date = none) ∧
    (∀ d : Option Nat, dateEq none d = false) ∧
    (∀ (df : DataFrame) (date format category : String) (out : List Row),
      get_top df date format category = .ok out → ∀ r ∈ out, r.Date ≠ none) ∧
    (∀ rows : List Row,
      parsedDates rows = parsedDates (rows.filter (fun r => r.Date.isSome))) ∧
    (∀ (t : List Row) (s : String) (r : Row), r ∈ t → r.Date = none →
      matchesName s r = true → r ∈ filterByName t s) := by
  refine ⟨?_, ?_, ?_, ?_, ?_⟩
  · intro raw h
    show parseDate raw.Date = none
    exact h
  · intro d
    cases d <;> rfl
  · intro df date format category out h r hr
    unfold get_top at h
    split at h
    · simp only [Except.ok.injEq] at h
      subst h
      have hr2 := List.mem_of_mem_take hr
      have hr3 : r ∈ df.rows.filter (fun r =>
          r.Format == format && r.Category == category &&
            dateEq r.Date (parseDate date)) :=
        (List.perm_insertionSort _ _).mem_iff.mp hr2
      have hpred := (List.mem_filter.mp hr3).2
      simp only [Bool.and_eq_true] at hpred
      intro hd
      rw [hd] at hpred
      cases parseDate date <;> simp [dateEq] at hpred
    · simp at h
  · intro rows
    induction rows with
    | nil => rfl
    | cons a t ih =>
      cases ha : a.Date with
      | none => simp [parsedDates, List.filterMap_cons, List.filter_cons, ha] at ih ⊢; exact ih
      | some d => simp [parsedDates, List.filterMap_cons, List.filter_cons, ha] at ih ⊢; exact ih
  · intro t s r hrt hd hm
    show r ∈ t.filter (matchesName s)
    exact List.mem_filter.mpr ⟨hrt, hm⟩

/-- C6: every leaderboard result (`/leaders`, `/year-leaders`,
`/decade-leaders`) is sorted descending by the lexicographic 3-tuple
(DaysAtRank1, DaysInTop5, DaysInTop10): pairwise (hence for all adjacent
pairs), an earlier entry's tuple is at least a later entry's. -/
theorem C6_leaderboards_sorted (df : DataFrame) (format category : String)
    (y dec top_n : Nat) (out : List LeaderEntry)
    (h : leaders df format category top_n = .ok out ∨
      year_leaders df y format category top_n = .ok out ∨
      (∃ res, decade_leaders df format category dec top_n = .ok res ∧
        decadeLeaderList res = out)) :
    out.Pairwise (fun a b => tupleGe a b = true) := by
  rcases h with h | h | ⟨res, hres, hout⟩
  · unfold leaders at h
    split at h
    · simp only [] at h
      split at h
      · simp only [Except.ok.injEq] at h
        subst h
        exact List.Pairwise.nil
      · simp only [Except.ok.injEq] at h
        subst h
        exact leaderboardOf_pairwise _ _
    · simp at h
  · unfold year_leaders at h
    split at h
    · simp only [] at h
      split at h
      · simp only [Except.ok.injEq] at h
        subst h
        exact List.Pairwise.nil
      · simp only [Except.ok.injEq] at h
        subst h
        exact leaderboardOf_pairwise _ _
    · simp at h
  · unfold decade_leaders at hres
    split at hres
    · simp only [] at hres
      split at hres
      · simp only [Except.ok.injEq] at hres
        subst hres
        simp only [decadeLeaderList] at hout
        subst hout
        exact List.Pairwise.nil
      · simp only [Except.ok.injEq] at hres
        subst hres
        simp only [decadeLeaderList] at hout
        subst hout
        exact leaderboardOf_pairwise _ _
    · simp at hres

/-- C10: filtering by the empty name substring — as the path-parameter name
or as one entry of `/compare`'s player list — matches exactly the rows with a
non-null Player (the empty string is a substring of every name), and is
non-empty whenever some row has a non-null Player. -/
theorem C10_empty_name_matches_all_nonnull (t : List Row) (format category : String) :
    filterByName t "" = t.filter (fun r => r.Player.isSome) ∧
    ICC.compare ⟨true, t⟩ "" format category =
      .ok [("", t.filter (fun r =>
        r.Format == format && r.Category == category && r.Player.isSome))] ∧
    ((∃ r ∈ t, r.Player.isSome = true) → filterByName t "" ≠ []) := by
  have hfn : filterByName t "" = t.filter (fun r => r.Player.isSome) :=
    List.filter_congr (fun r _ => matchesName_empty r)
  refine ⟨hfn, ?_, ?_⟩
  · have hstep : ICC.compare ⟨true, t⟩ "" format category =
        .ok ((splitPlayers "").map (fun name => (name, t.filter (fun r =>
          r.Format == format && r.Category == category && matchesName name r)))) := rfl
    have hsp : splitPlayers "" = [""] := rfl
    have hin : t.filter (fun r =>
          r.Format == format && r.Category == category && matchesName "" r) =
        t.filter (fun r =>
          r.Format == format && r.Category == category && r.Player.isSome) :=
      List.filter_congr (fun r _ => by rw [matchesName_empty])
    rw [hstep, hsp]
    simp only [List.map_cons, List.map_nil, hin]
  · rintro ⟨r, hrt, hs⟩ hempty
    have hmem : r ∈ filterByName t "" := by
      rw [hfn]
      exact List.mem_filter.mpr ⟨hrt, hs⟩
    rw [hempty] at hmem
    exact List.not_mem_nil r hmem

/-- Witness for C4: the regex/substring agreement and the no-data branch for
an unmatched metacharacter-free name, and the summary branch for "ko" on the
sample table. -/
theorem C4_player_summary_witness :
    player_summary_re dfEx ("zz") none none =
      some (player_summary dfEx ("zz") none none) ∧
    player_summary dfEx ("zz") none none = .ok (.noData ("zz")) ∧
    (∃ peak l1 l2,
      summaryData dfEx ("ko") none none = l1 ++ peak :: l2 ∧
      (∀ r ∈ l1, r.Rating < peak.Rating) ∧
      (∀ r ∈ l2, r.Rating ≤ peak.Rating) ∧
      isEarliest (seriesMin (parsedDates (summaryData dfEx ("ko") none none)))
        (parsedDates (summaryData dfEx ("ko") none none)) ∧
      isLatest (seriesMax (parsedDates (summaryData dfEx ("ko") none none)))
        (parsedDates (summaryData dfEx ("ko") none none)) ∧
      player_summary dfEx ("ko") none none = .ok (.summary ("ko") (fmtLabel none)
        (fmtLabel none) peak.Rating peak.Rank
        ((summaryData dfEx ("ko") none none).countP (fun r => r.Rank == 1))
        (seriesMin (parsedDates (summaryData dfEx ("ko") none none)))
        (seriesMax (parsedDates (summaryData dfEx ("ko") none none))))) :=
  ⟨(C4_player_summary_spec dfEx ("zz") none none rfl (by decide)).1,
   (C4_player_summary_spec dfEx ("zz") none none rfl (by decide)).2.1 (by decide),
   (C4_player_summary_spec dfEx ("ko") none none rfl (by decide)).2.2 (by decide)⟩

/-- Witness for C5 on the sample table: an unparseable raw date becomes the
null marker; no row of the `/top` result has a null date; the null-date row
still shows up in the name query. -/
theorem C5_unparseable_dates_witness :
    (parseRow rawBad).Date = none ∧
    rowK1.Date ≠ none ∧
    rowND ∈ filterByName dfEx.rows ("ko") :=
  ⟨C5_unparseable_dates_excluded.1 rawBad (by decide),
   C5_unparseable_dates_excluded.2.2.1 dfEx ("2020-01-01") ("odi") ("batting")
     [rowK1, rowB, rowNull] (by decide) rowK1 (by decide),
   C5_unparseable_dates_excluded.2.2.2.2 dfEx.rows ("ko") rowND (by decide) (by decide)
     (by decide)⟩

/-- Witness for C6: the sample `/leaders` output, with a tie on DaysAtRank1
broken by DaysInTop5, is pairwise sorted. -/
theorem C6_leaderboards_sorted_witness :
    leaders dfEx ("odi") ("batting") 20 =
      .ok [⟨("Ko"), 1, 3, 3⟩, ⟨("Ab"), 1, 1, 1⟩] ∧
    ([⟨("Ko"), 1, 3, 3⟩, ⟨("Ab"), 1, 1, 1⟩] : List LeaderEntry).Pairwise
      (fun a b => tupleGe a b = true) :=
  ⟨by decide,
   C6_leaderboards_sorted dfEx ("odi") ("batting") 0 0 20
     [⟨("Ko"), 1, 3, 3⟩, ⟨("Ab"), 1, 1, 1⟩] (Or.inl (by decide))⟩

/-- Witness for C10 on the sample table (which has a null-Player row that is
excluded and four non-null rows that all match the empty substring). -/
theorem C10_empty_name_witness :
    filterByName dfEx.rows ("") = dfEx.rows.filter (fun r => r.Player.isSome) ∧
    ICC.compare ⟨true, dfEx.rows⟩ ("") ("odi") ("batting") =
      .ok [(("") , dfEx.rows.filter (fun r =>
        r.Format == ("odi") && r.Category == ("batting") && r.Player.isSome))] ∧
    filterByName dfEx.rows ("") ≠ [] :=
  ⟨(C10_empty_name_matches_all_nonnull dfEx.rows ("odi") ("batting")).1,
   (C10_empty_name_matches_all_nonnull dfEx.rows ("odi") ("batting")).2.1,
   (C10_empty_name_matches_all_nonnull dfEx.rows ("odi") ("batting")).2.2
     ⟨rowK1, by decide, by decide⟩⟩

end ICC
